import Mathlib

/-!
Verification of the weekly Slack notification worker (`src/index.ts`).

The worker's evaluation pass (`runNotificationCheck`), its duplicate
suppression (`checkRecentlySent`), its dispatcher (`sendSlackNotification`)
and its scheduled retry shell (the `scheduled` handler) are embedded here as
pure Lean functions.  JavaScript strings are modelled as `List Char`, with
the JS built-ins the worker uses (`split`, `trim`, `toLowerCase`, `Number`)
re-implemented structurally so that every definition evaluates inside the
kernel.  All I/O outcomes (Supabase reads/writes, the Slack webhook fetch,
the `SLACK_WEBHOOK_URL` environment variable) are supplied by a `Behavior`
oracle, and timestamps are integers in milliseconds since the epoch, the
unit in which the code compares `sent_at` against its cooldown cutoffs.
-/

namespace SwabWorker

/-- JavaScript strings, modelled as lists of characters. -/
abbrev Str := List Char

/-- JS `string.split(sep)` for a single-character separator: `"".split` gives
`[""]`, and a trailing separator yields a trailing empty piece, exactly as in
JavaScript. -/
def splitOnChar (sep : Char) : Str → List Str
  | [] => [[]]
  | c :: rest =>
    let r := splitOnChar sep rest
    if c = sep then [] :: r
    else
      match r with
      | [] => [[c]]
      | h :: t => (c :: h) :: t

/-- JS `Number(s)` restricted to the digit strings produced by splitting a
well-formed `HH:MM:SS` value.  A non-empty all-digit string parses to its
decimal value; anything else gives `none` (the model's stand-in for JS `NaN`,
which no claim exercises). -/
def parseNat? (s : Str) : Option Nat :=
  if s ≠ [] ∧ s.all Char.isDigit then
    some (s.foldl (fun n c => n * 10 + (c.toNat - 48)) 0)
  else none

/-- The whitespace characters JS `trim` removes that can occur in the stored
day values. -/
def isJsWhitespace (c : Char) : Bool :=
  c = ' ' || c = '\t' || c = '\n' || c = '\r'

/-- JS `string.trim()`. -/
def jsTrim (s : Str) : Str :=
  ((s.dropWhile isJsWhitespace).reverse.dropWhile isJsWhitespace).reverse

/-- JS `string.toLowerCase()` (the stored day values are ASCII). -/
def jsToLower (s : Str) : Str := s.map Char.toLower

/-- `src/index.ts` line 649: the lowercase English day names, indexed by
`Date.getDay()` (0 = Sunday). -/
def dayNames : List Str :=
  ["sunday".data, "monday".data, "tuesday".data, "wednesday".data,
   "thursday".data, "friday".data, "saturday".data]

/-- `timeToMinutes` (`src/index.ts` lines 752-755): split the `HH:MM:SS`
string on a colon and return `hours * 60 + minutes`; the seconds field is
never read. -/
def timeToMinutes (timeString : Str) : Nat :=
  let parts := (splitOnChar ':' timeString).map (fun p => (parseNat? p).getD 0)
  parts.getD 0 0 * 60 + parts.getD 1 0

/-- The minute distance computed in `runNotificationCheck` line 683:
`Math.abs(timeToMinutes(currentTime) - timeToMinutes(notificationTime))`. -/
def timeDiffOf (currentTime notificationTime : Str) : Nat :=
  ((timeToMinutes currentTime : Int) - (timeToMinutes notificationTime : Int)).natAbs

/-- `checkDayMatch` (`src/index.ts` lines 618-633): trim both the stored day
and the current day number and compare; otherwise compare the trimmed stored
day against the current day name, both lowercased. -/
def checkDayMatch (dbDay currentDayNumber currentDayName : Str) : Bool :=
  let normalizedDbDay := jsTrim dbDay
  let normalizedCurrentDay := jsTrim currentDayNumber
  if normalizedDbDay = normalizedCurrentDay then true
  else if jsToLower normalizedDbDay = jsToLower currentDayName then true
  else false

/-- A row of `weekly_notifications` (`src/types/index.ts`), restricted to the
fields the evaluation pass reads. -/
structure WeeklyNotification where
  id : String
  message : String
  day_of_week : Str
  time : Str
  is_active : Bool
deriving DecidableEq

/-- A row of `sent_notifications`: the delivery ledger.  `sent_at` is the
confirmed-send timestamp in milliseconds since the epoch (the code stores an
ISO string and compares it against `Date.now()`-derived cutoffs, which
coincides with integer millisecond comparison). -/
structure SentRecord where
  notification_id : String
  sent_at : Int
deriving DecidableEq

/-- Outcome of the Slack webhook `fetch`: HTTP success, a non-ok HTTP
response, or a thrown network error. -/
inductive TransportResult where
  | ok
  | httpError
  | netError
deriving DecidableEq

/-- Oracle for every I/O outcome of one evaluation pass.  `storeFails` covers
both an error result and a thrown exception on the `weekly_notifications`
select; `queryFails` likewise covers both failure modes of the
`sent_notifications` select, per notification id; `insertFails` covers both
failure modes of the `sent_notifications` insert. -/
structure Behavior where
  storeFails : Bool
  queryFails : String → Bool
  webhookSet : Bool
  transport : String → TransportResult
  insertFails : String → Bool

/-- The time inputs of one pass: the KST day of week (`Date.getDay()`), the
KST wall-clock `HH:MM:SS` string (`formatTime`), and `Date.now()` in
milliseconds. -/
structure TimeCtx where
  day : Fin 7
  timeStr : Str
  nowMs : Int

/-- `checkRecentlySent` (`src/index.ts` lines 716-750): choose a 5-minute
cooldown when the pass is within 2 minutes of the rule's time and a
15-minute cooldown otherwise, then ask the ledger for a record of this rule
with `sent_at` at or after `now - cooldown` (`.gte`, `.limit(1)`).  Any
query failure - error result or thrown exception - returns `false`
(fail-open, per the comments at lines 734 and 748). -/
def checkRecentlySent (b : Behavior) (ledger : List SentRecord)
    (notificationId : String) (timeDiff : Nat) (nowMs : Int) : Bool :=
  let cooldownMinutes : Int := if timeDiff ≤ 2 then 5 else 15
  let cooldownTime : Int := nowMs - cooldownMinutes * 60 * 1000
  if b.queryFails notificationId then false
  else
    let recentSent :=
      (ledger.filter (fun r =>
        r.notification_id == notificationId && decide (cooldownTime ≤ r.sent_at))).take 1
    decide (recentSent.length > 0)

/-- Result of one `sendSlackNotification` call: the ledger afterwards,
whether the webhook reported success, how many ledger inserts were
attempted, and how many webhook fetches were made. -/
structure SendResult where
  ledger : List SentRecord
  sent : Bool
  insertAttempts : Nat
  transportCalls : Nat
deriving DecidableEq

/-- `sendSlackNotification` (`src/index.ts` lines 757-807): return at once if
`SLACK_WEBHOOK_URL` is unset; otherwise fetch the webhook.  A non-ok
response or a thrown fetch error returns without touching the ledger.  On
success, attempt exactly one `sent_notifications` insert; an insert failure
is logged and swallowed, leaving the ledger unchanged, and never undoes the
send.  Every path returns normally (the function catches its own
exceptions). -/
def sendSlackNotification (b : Behavior) (ledger : List SentRecord)
    (message : String) (notificationId : String) (nowMs : Int) : SendResult :=
  if !b.webhookSet then ⟨ledger, false, 0, 0⟩
  else
    match b.transport notificationId with
    | .httpError => ⟨ledger, false, 0, 1⟩
    | .netError => ⟨ledger, false, 0, 1⟩
    | .ok =>
      if b.insertFails notificationId then ⟨ledger, true, 1, 1⟩
      else ⟨ledger ++ [⟨notificationId, nowMs⟩], true, 1, 1⟩

/-- Result of one evaluation pass: the ledger afterwards, the rules that
reached the cooldown consult (`candidates`), and the rules actually handed
to the dispatcher (`matchingNotifications` in the source, here
`matching`). -/
structure PassResult where
  ledger : List SentRecord
  candidates : List WeeklyNotification
  matching : List WeeklyNotification
deriving DecidableEq

/-- `runNotificationCheck` (`src/index.ts` lines 635-714).  The
`weekly_notifications` select with `.eq('is_active', true)` is modelled as
filtering the table by `is_active`; a store failure (error result, handled
by the early `return` at line 660, or a thrown exception, swallowed by the
`catch` at line 711) ends the pass with no dispatches and no ledger writes.
Otherwise: filter to rules whose day matches (`checkDayMatch`, with the
current day number `getDay().toString()` and the day name
`dayNames[getDay()]`), drop rules more than 15 minutes away, drop rules
`checkRecentlySent` reports as recently sent - all three filters consult
the ledger as it stood at the start of the pass - then dispatch the
survivors in order, threading the ledger through each send. -/
def runNotificationCheck (b : Behavior) (ctx : TimeCtx)
    (rules : List WeeklyNotification) (ledger : List SentRecord) : PassResult :=
  let currentDayOfWeek : Str := (toString ctx.day.val).data
  let currentDayName : Str := dayNames.getD ctx.day.val []
  if b.storeFails then ⟨ledger, [], []⟩
  else
    let notifications := rules.filter (fun n => n.is_active)
    let todaysNotifications := notifications.filter
      (fun n => checkDayMatch n.day_of_week currentDayOfWeek currentDayName)
    let candidates := todaysNotifications.filter
      (fun n => decide (timeDiffOf ctx.timeStr n.time ≤ 15))
    let matchingNotifications := candidates.filter
      (fun n => !(checkRecentlySent b ledger n.id (timeDiffOf ctx.timeStr n.time) ctx.nowMs))
    let finalLedger := matchingNotifications.foldl
      (fun led n => (sendSlackNotification b led n.message n.id ctx.nowMs).ledger) ledger
    ⟨finalLedger, candidates, matchingNotifications⟩

/-- The pass as seen by its caller: `runNotificationCheck` resolves normally
on every modelled behavior, because a store error returns early and every
other failure is caught inside the function (lines 657-661 and 711-713). -/
def runNotificationCheckE (b : Behavior) (ctx : TimeCtx)
    (rules : List WeeklyNotification) (ledger : List SentRecord) :
    Except String PassResult :=
  Except.ok (runNotificationCheck b ctx rules ledger)

/-- The `scheduled` handler (`src/index.ts` lines 579-602): run the pass;
only if it rejects, wait two seconds and run it exactly once more, a second
failure being logged and surfaced no further.  Returns how many times the
pass ran together with the final pass result. -/
def scheduled (b : Behavior) (ctx : TimeCtx)
    (rules : List WeeklyNotification) (ledger : List SentRecord) :
    Nat × PassResult :=
  match runNotificationCheckE b ctx rules ledger with
  | .ok r => (1, r)
  | .error _ =>
    match runNotificationCheckE b ctx rules ledger with
    | .ok r => (2, r)
    | .error _ => (2, ⟨ledger, [], []⟩)

/-- Fold a sequence of evaluation passes over a ledger. -/
def runPasses (b : Behavior) (rules : List WeeklyNotification)
    (ctxs : List TimeCtx) (ledger : List SentRecord) : List SentRecord :=
  ctxs.foldl (fun led ctx => (runNotificationCheck b ctx rules led).ledger) ledger

/-- The ledger rows belonging to one rule. -/
def recordsFor (id : String) (ledger : List SentRecord) : List SentRecord :=
  ledger.filter (fun r => r.notification_id == id)

/-- A behavior in which every piece of I/O succeeds. -/
def okBehavior : Behavior :=
  ⟨false, fun _ => false, true, fun _ => .ok, fun _ => false⟩

/-- A behavior in which the `weekly_notifications` select fails and all other
I/O succeeds. -/
def storeFailBehavior : Behavior :=
  ⟨true, fun _ => false, true, fun _ => .ok, fun _ => false⟩

/-- A behavior in which every `sent_notifications` select fails and all other
I/O succeeds. -/
def queryFailBehavior : Behavior :=
  ⟨false, fun _ => true, true, fun _ => .ok, fun _ => false⟩

/-- A behavior in which `SLACK_WEBHOOK_URL` is unset and all I/O succeeds. -/
def noWebhookBehavior : Behavior :=
  ⟨false, fun _ => false, false, fun _ => .ok, fun _ => false⟩

/-- A rule due Mondays at 10:00:00 KST. -/
def mondayRule : WeeklyNotification :=
  ⟨"r1", "hello", "1".data, "10:00:00".data, true⟩

/-- A pass running Monday at 09:54:00, six minutes before `mondayRule` is
due; `nowMs` is the matching epoch timestamp (minute 594 of the epoch
day). -/
def passAt0954 : TimeCtx := ⟨1, "09:54:00".data, 35640000⟩

/-- A pass running Monday at 10:00:00 sharp, `mondayRule`'s exact
occurrence; `nowMs` is the matching epoch timestamp (minute 600 of the epoch
day). -/
def passAt1000 : TimeCtx := ⟨1, "10:00:00".data, 36000000⟩

/-! ## Helper lemmas -/

theorem sendSlackNotification_ledger_cases (b : Behavior) (led : List SentRecord)
    (m id : String) (now : Int) :
    (sendSlackNotification b led m id now).ledger = led ∨
    (sendSlackNotification b led m id now).ledger = led ++ [⟨id, now⟩] := by
  cases hw : b.webhookSet <;> cases ht : b.transport id <;>
    cases hi : b.insertFails id <;> simp [sendSlackNotification, hw, ht, hi]

theorem mem_sendSlackNotification_ledger (b : Behavior) (led : List SentRecord)
    (m id : String) (now : Int) (x : SentRecord) (hx : x ∈ led) :
    x ∈ (sendSlackNotification b led m id now).ledger := by
  rcases sendSlackNotification_ledger_cases b led m id now with h | h <;>
    rw [h] <;> simp [hx]

theorem mem_foldl_send (b : Behavior) (now : Int) (x : SentRecord) :
    ∀ (ms : List WeeklyNotification) (led : List SentRecord), x ∈ led →
      x ∈ ms.foldl (fun led n => (sendSlackNotification b led n.message n.id now).ledger) led
  | [], _, hx => hx
  | m :: ms, led, hx =>
    mem_foldl_send b now x ms _
      (mem_sendSlackNotification_ledger b led m.message m.id now x hx)

theorem record_mem_foldl_send (b : Behavior) (now : Int) (n : WeeklyNotification)
    (hw : b.webhookSet = true) (ht : b.transport n.id = .ok)
    (hi : b.insertFails n.id = false) :
    ∀ (ms : List WeeklyNotification) (led : List SentRecord), n ∈ ms →
      (⟨n.id, now⟩ : SentRecord) ∈
        ms.foldl (fun led k => (sendSlackNotification b led k.message k.id now).ledger) led := by
  intro ms
  induction ms with
  | nil => intro led hn; cases hn
  | cons m ms ih =>
    intro led hn
    rcases List.mem_cons.1 hn with rfl | hn
    · refine mem_foldl_send b now _ ms _ ?_
      simp [sendSlackNotification, hw, ht, hi]
    · exact ih _ hn

theorem checkRecentlySent_eq_true_iff (b : Behavior) (l : List SentRecord)
    (id : String) (d : Nat) (now : Int) (h : b.queryFails id = false) :
    checkRecentlySent b l id d now = true ↔
      ∃ r ∈ l, r.notification_id = id ∧
        now - (if d ≤ 2 then (5 : Int) else 15) * 60 * 1000 ≤ r.sent_at := by
  simp only [checkRecentlySent, h, Bool.false_eq_true, if_false, decide_eq_true_eq,
    List.length_take, lt_min_iff, List.length_pos_iff_exists_mem]
  constructor
  · rintro ⟨-, r, hr⟩
    have := List.mem_filter.1 hr
    refine ⟨r, this.1, ?_⟩
    have hp := this.2
    simp only [Bool.and_eq_true, beq_iff_eq, decide_eq_true_eq] at hp
    exact ⟨hp.1, hp.2⟩
  · rintro ⟨r, hrl, hid, hle⟩
    refine ⟨by omega, r, List.mem_filter.2 ⟨hrl, ?_⟩⟩
    simp only [Bool.and_eq_true, beq_iff_eq, decide_eq_true_eq]
    exact ⟨hid, hle⟩

theorem runNotificationCheck_ledger_eq (b : Behavior) (ctx : TimeCtx)
    (rules : List WeeklyNotification) (ledger : List SentRecord)
    (hs : b.storeFails = false) :
    (runNotificationCheck b ctx rules ledger).ledger =
      (runNotificationCheck b ctx rules ledger).matching.foldl
        (fun led n => (sendSlackNotification b led n.message n.id ctx.nowMs).ledger)
        ledger := by
  simp [runNotificationCheck, hs]

theorem mem_matching_iff (b : Behavior) (ctx : TimeCtx)
    (rules : List WeeklyNotification) (ledger : List SentRecord)
    (n : WeeklyNotification) (hs : b.storeFails = false) :
    n ∈ (runNotificationCheck b ctx rules ledger).matching ↔
      n ∈ rules ∧ n.is_active = true ∧
      checkDayMatch n.day_of_week (toString ctx.day.val).data
        (dayNames.getD ctx.day.val []) = true ∧
      timeDiffOf ctx.timeStr n.time ≤ 15 ∧
      checkRecentlySent b ledger n.id (timeDiffOf ctx.timeStr n.time) ctx.nowMs = false := by
  simp only [runNotificationCheck, hs, Bool.false_eq_true, if_false,
    List.mem_filter, Bool.not_eq_true', decide_eq_true_eq]
  tauto

theorem checkDayMatch_eq_true_iff (dbDay num name : Str) :
    checkDayMatch dbDay num name = true ↔
      jsTrim dbDay = jsTrim num ∨ jsToLower (jsTrim dbDay) = jsToLower name := by
  simp only [checkDayMatch]
  split_ifs with h1 h2 <;> simp [*]

theorem dayNumber_trim_fixed : ∀ d : Fin 7,
    jsTrim (toString d.val).data = (toString d.val).data := by decide

theorem dayName_lower_fixed : ∀ d : Fin 7,
    jsToLower (dayNames.getD d.val []) = dayNames.getD d.val [] := by decide

/-! ## Claim theorems -/

/-- C1: the at-most-one-delivery-per-occurrence invariant fails on the code.
`mondayRule` is due Monday 10:00 (epoch millisecond 36000000 of the modelled
Monday).  Two evaluation passes in which every ledger read and write
succeeds - one at 09:54 (minute distance 6, candidate, empty ledger, so it
dispatches and records) and one at 10:00 (distance 0, so the 5-minute
cooldown applies and the 6-minute-old record is invisible, so it dispatches
and records again) - leave two delivery records for the rule whose
`sent_at` lies inside the 15-minute suppression window anchored at the
10:00 occurrence.  The claim allows at most one. -/
theorem duplicate_delivery_within_occurrence_window :
    ((recordsFor "r1"
        (runPasses okBehavior [mondayRule] [passAt0954, passAt1000] [])).filter
      (fun r => decide (36000000 - 15 * 60 * 1000 ≤ r.sent_at) &&
        decide (r.sent_at ≤ 36000000 + 15 * 60 * 1000))).length = 2 := by decide

/-- C2: when the store read succeeds, a rule reaches the cooldown check (is
a candidate of the pass) iff it is one of the store's rules, is active, its
day matches the current day, and its minute distance to the current time is
at most 15 - so a rule 20 minutes away is never a candidate. -/
theorem candidate_iff_day_and_tolerance (b : Behavior) (ctx : TimeCtx)
    (rules : List WeeklyNotification) (ledger : List SentRecord)
    (n : WeeklyNotification) (hs : b.storeFails = false) :
    n ∈ (runNotificationCheck b ctx rules ledger).candidates ↔
      n ∈ rules ∧ n.is_active = true ∧
      checkDayMatch n.day_of_week (toString ctx.day.val).data
        (dayNames.getD ctx.day.val []) = true ∧
      timeDiffOf ctx.timeStr n.time ≤ 15 := by
  simp only [runNotificationCheck, hs, Bool.false_eq_true, if_false,
    List.mem_filter, decide_eq_true_eq]
  tauto

/-- Witness for C2 at a concrete input: the Monday rule is a candidate of
the 10:00 Monday pass. -/
theorem candidate_iff_day_and_tolerance_witness :
    mondayRule ∈ (runNotificationCheck okBehavior passAt1000 [mondayRule] []).candidates ↔
      mondayRule ∈ [mondayRule] ∧ mondayRule.is_active = true ∧
      checkDayMatch mondayRule.day_of_week (toString passAt1000.day.val).data
        (dayNames.getD passAt1000.day.val []) = true ∧
      timeDiffOf passAt1000.timeStr mondayRule.time ≤ 15 :=
  candidate_iff_day_and_tolerance okBehavior passAt1000 [mondayRule] [] mondayRule rfl

/-- C3: when the ledger query succeeds, `checkRecentlySent` suppresses iff
the ledger holds a record for the rule with `sent_at` at or after
`now - w`, where the window `w` is 5 minutes for minute distances up to 2
and 15 minutes for minute distances of 3 and above. -/
theorem cooldown_window_boundary (b : Behavior) (l : List SentRecord)
    (id : String) (d : Nat) (now : Int) (h : b.queryFails id = false) :
    (d ≤ 2 → (checkRecentlySent b l id d now = true ↔
      ∃ r ∈ l, r.notification_id = id ∧ now - 5 * 60 * 1000 ≤ r.sent_at)) ∧
    (3 ≤ d → (checkRecentlySent b l id d now = true ↔
      ∃ r ∈ l, r.notification_id = id ∧ now - 15 * 60 * 1000 ≤ r.sent_at)) := by
  constructor
  · intro hd
    rw [checkRecentlySent_eq_true_iff b l id d now h, if_pos hd]
  · intro hd
    rw [checkRecentlySent_eq_true_iff b l id d now h, if_neg (by omega)]

/-- Witness for C3 at the two boundary distances 2 and 3, on a singleton
ledger. -/
theorem cooldown_window_boundary_witness :
    ((2 ≤ 2 → (checkRecentlySent okBehavior [⟨"r1", 0⟩] "r1" 2 0 = true ↔
      ∃ r ∈ [(⟨"r1", 0⟩ : SentRecord)], r.notification_id = "r1" ∧
        (0 : Int) - 5 * 60 * 1000 ≤ r.sent_at)) ∧
     (3 ≤ 2 → (checkRecentlySent okBehavior [⟨"r1", 0⟩] "r1" 2 0 = true ↔
      ∃ r ∈ [(⟨"r1", 0⟩ : SentRecord)], r.notification_id = "r1" ∧
        (0 : Int) - 15 * 60 * 1000 ≤ r.sent_at))) ∧
    ((3 ≤ 2 → (checkRecentlySent okBehavior [⟨"r1", 0⟩] "r1" 3 0 = true ↔
      ∃ r ∈ [(⟨"r1", 0⟩ : SentRecord)], r.notification_id = "r1" ∧
        (0 : Int) - 5 * 60 * 1000 ≤ r.sent_at)) ∧
     (3 ≤ 3 → (checkRecentlySent okBehavior [⟨"r1", 0⟩] "r1" 3 0 = true ↔
      ∃ r ∈ [(⟨"r1", 0⟩ : SentRecord)], r.notification_id = "r1" ∧
        (0 : Int) - 15 * 60 * 1000 ≤ r.sent_at))) :=
  ⟨cooldown_window_boundary okBehavior [⟨"r1", 0⟩] "r1" 2 0 rfl,
   cooldown_window_boundary okBehavior [⟨"r1", 0⟩] "r1" 3 0 rfl⟩

/-- C4: replaying the same evaluation pass (same time context, same rules)
against the ledger left by the first pass dispatches no rule the first pass
delivered and recorded: whichever cooldown window the second pass consults
reaches back past the fresh record, whose `sent_at` equals the pass's own
timestamp. -/
theorem second_pass_suppresses_delivered_rule (b : Behavior) (ctx : TimeCtx)
    (rules : List WeeklyNotification) (ledger : List SentRecord)
    (n : WeeklyNotification)
    (hq : b.queryFails n.id = false) (hw : b.webhookSet = true)
    (ht : b.transport n.id = TransportResult.ok) (hi : b.insertFails n.id = false)
    (h1 : n ∈ (runNotificationCheck b ctx rules ledger).matching) :
    n ∉ (runNotificationCheck b ctx rules
      (runNotificationCheck b ctx rules ledger).ledger).matching := by
  intro h2
  cases hs : b.storeFails with
  | true => simp [runNotificationCheck, hs] at h1
  | false =>
    have hrec : (⟨n.id, ctx.nowMs⟩ : SentRecord) ∈
        (runNotificationCheck b ctx rules ledger).ledger := by
      rw [runNotificationCheck_ledger_eq b ctx rules ledger hs]
      exact record_mem_foldl_send b ctx.nowMs n hw ht hi _ _ h1
    have hchk := ((mem_matching_iff b ctx rules _ n hs).1 h2).2.2.2.2
    have htrue : checkRecentlySent b (runNotificationCheck b ctx rules ledger).ledger
        n.id (timeDiffOf ctx.timeStr n.time) ctx.nowMs = true := by
      rw [checkRecentlySent_eq_true_iff _ _ _ _ _ hq]
      refine ⟨⟨n.id, ctx.nowMs⟩, hrec, rfl, ?_⟩
      dsimp only
      split_ifs <;> omega
    rw [hchk] at htrue
    exact Bool.false_ne_true htrue

/-- Witness for C4 at a concrete input: the Monday rule, dispatched by the
10:00 pass from an empty ledger, is not dispatched when the same pass
replays against the resulting ledger. -/
theorem second_pass_suppresses_delivered_rule_witness :
    mondayRule ∉ (runNotificationCheck okBehavior passAt1000 [mondayRule]
      (runNotificationCheck okBehavior passAt1000 [mondayRule] []).ledger).matching :=
  second_pass_suppresses_delivered_rule okBehavior passAt1000 [mondayRule] []
    mondayRule rfl rfl rfl rfl (by decide)

/-- C5: if the ledger query fails - error result or thrown exception, both
covered by the `queryFails` oracle - `checkRecentlySent` returns `false`,
letting the candidate through to dispatch instead of suppressing it or
aborting the pass. -/
theorem checkRecentlySent_fails_open (b : Behavior) (l : List SentRecord)
    (id : String) (d : Nat) (now : Int) (h : b.queryFails id = true) :
    checkRecentlySent b l id d now = false := by
  simp [checkRecentlySent, h]

/-- Witness for C5 at a concrete input: with the query failing, even a
ledger holding a record sent at this very millisecond does not suppress. -/
theorem checkRecentlySent_fails_open_witness :
    checkRecentlySent queryFailBehavior [⟨"r1", 0⟩] "r1" 0 0 = false :=
  checkRecentlySent_fails_open queryFailBehavior [⟨"r1", 0⟩] "r1" 0 0 rfl

/-- C6: with the webhook configured, a transport failure (non-ok response
or thrown fetch error) attempts no ledger insert and leaves the ledger
unchanged; a confirmed transport success attempts exactly one insert, and
if that insert fails the ledger is unchanged while the send still stands
(`sent` remains `true`), while an insert success appends exactly the one
record. -/
theorem dispatch_ledger_discipline (b : Behavior) (l : List SentRecord)
    (msg id : String) (now : Int) (hw : b.webhookSet = true) :
    (b.transport id ≠ TransportResult.ok →
      (sendSlackNotification b l msg id now).ledger = l ∧
      (sendSlackNotification b l msg id now).insertAttempts = 0) ∧
    (b.transport id = TransportResult.ok →
      (sendSlackNotification b l msg id now).sent = true ∧
      (sendSlackNotification b l msg id now).insertAttempts = 1 ∧
      (b.insertFails id = true → (sendSlackNotification b l msg id now).ledger = l) ∧
      (b.insertFails id = false →
        (sendSlackNotification b l msg id now).ledger = l ++ [⟨id, now⟩])) := by
  cases ht : b.transport id <;> cases hi : b.insertFails id <;>
    simp [sendSlackNotification, hw, ht, hi]

/-- Witness for C6 at a concrete input with a succeeding transport and
insert. -/
theorem dispatch_ledger_discipline_witness :
    (okBehavior.transport "r1" ≠ TransportResult.ok →
      (sendSlackNotification okBehavior [] "hello" "r1" 0).ledger = [] ∧
      (sendSlackNotification okBehavior [] "hello" "r1" 0).insertAttempts = 0) ∧
    (okBehavior.transport "r1" = TransportResult.ok →
      (sendSlackNotification okBehavior [] "hello" "r1" 0).sent = true ∧
      (sendSlackNotification okBehavior [] "hello" "r1" 0).insertAttempts = 1 ∧
      (okBehavior.insertFails "r1" = true →
        (sendSlackNotification okBehavior [] "hello" "r1" 0).ledger = []) ∧
      (okBehavior.insertFails "r1" = false →
        (sendSlackNotification okBehavior [] "hello" "r1" 0).ledger =
          [] ++ [⟨"r1", 0⟩])) :=
  dispatch_ledger_discipline okBehavior [] "hello" "r1" 0 rfl

/-- C7: for each day 0-6, `checkDayMatch` accepts a stored day value iff it
trims to the day's decimal digit string or trims and lowercases to the
day's lowercase English name; every other stored value is rejected. -/
theorem checkDayMatch_numeric_or_name (d : Fin 7) (s : Str) :
    checkDayMatch s (toString d.val).data (dayNames.getD d.val []) = true ↔
      jsTrim s = (toString d.val).data ∨
      jsToLower (jsTrim s) = dayNames.getD d.val [] := by
  rw [checkDayMatch_eq_true_iff, dayNumber_trim_fixed d, dayName_lower_fixed d]

/-- C8: for any two time strings splitting as `HH:MM:SS` with numeric hour
and minute fields, the minute distance is the absolute difference of their
minutes-since-midnight values; the seconds fields are ignored and there is
no midnight wraparound. -/
theorem minute_distance_no_wraparound (s₁ s₂ h1s m1s x1s h2s m2s x2s : Str)
    (a₁ b₁ a₂ b₂ : Nat)
    (hsp₁ : splitOnChar ':' s₁ = [h1s, m1s, x1s])
    (ha₁ : parseNat? h1s = some a₁) (hb₁ : parseNat? m1s = some b₁)
    (hsp₂ : splitOnChar ':' s₂ = [h2s, m2s, x2s])
    (ha₂ : parseNat? h2s = some a₂) (hb₂ : parseNat? m2s = some b₂) :
    timeDiffOf s₁ s₂ = ((a₁ * 60 + b₁ : Int) - (a₂ * 60 + b₂ : Int)).natAbs := by
  unfold timeDiffOf timeToMinutes
  rw [hsp₁, hsp₂]
  simp only [List.map_cons, List.map_nil, ha₁, hb₁, ha₂, hb₂, Option.getD_some,
    List.getD_cons_zero, List.getD_cons_succ]
  congr 1

/-- Witness for C8: 23:58 versus 00:02 is 1436 minutes apart, not 4. -/
theorem minute_distance_no_wraparound_witness :
    timeDiffOf "23:58:00".data "00:02:00".data = 1436 :=
  (minute_distance_no_wraparound "23:58:00".data "00:02:00".data
      "23".data "58".data "00".data "00".data "02".data "00".data
      23 58 0 2 (by decide) (by decide) (by decide) (by decide) (by decide)
      (by decide)).trans (by decide)

/-- C9 counterexample: with the `weekly_notifications` read failing and all
other I/O healthy, the scheduled handler executes the pass exactly once.
The store failure is swallowed inside `runNotificationCheck` (the early
return at line 660 and the catch at line 711), so the handler's retry -
which fires only when the pass rejects - never runs, refuting the claim's
"retried exactly once by the retry shell" at this input. -/
theorem store_failure_not_retried_cex :
    (scheduled storeFailBehavior passAt1000 [mondayRule] []).1 = 1 ∧
    (scheduled storeFailBehavior passAt1000 [mondayRule] []).1 ≠ 2 := by decide

/-- C9 amended: if the store read of active rules fails, the evaluation
pass aborts with zero dispatches and no ledger writes, and the scheduled
handler runs the pass only once - the failure is handled inside the pass,
so the handler's single retry (reserved for a pass that throws) does not
trigger. -/
theorem store_failure_aborts_without_retry (b : Behavior) (ctx : TimeCtx)
    (rules : List WeeklyNotification) (ledger : List SentRecord)
    (hs : b.storeFails = true) :
    (scheduled b ctx rules ledger).2.matching = [] ∧
    (scheduled b ctx rules ledger).2.ledger = ledger ∧
    (scheduled b ctx rules ledger).1 = 1 := by
  simp [scheduled, runNotificationCheckE, runNotificationCheck, hs]

/-- Witness for the amended C9 at a concrete input. -/
theorem store_failure_aborts_without_retry_witness :
    (scheduled storeFailBehavior passAt0954 [mondayRule] []).2.matching = [] ∧
    (scheduled storeFailBehavior passAt0954 [mondayRule] []).2.ledger = [] ∧
    (scheduled storeFailBehavior passAt0954 [mondayRule] []).1 = 1 :=
  store_failure_aborts_without_retry storeFailBehavior passAt0954 [mondayRule] [] rfl

/-- C10: with `SLACK_WEBHOOK_URL` unset, the dispatch function returns
normally having made no webhook call and no insert attempt, leaving the
ledger untouched; the rule is skipped silently for the pass. -/
theorem missing_webhook_skips_silently (b : Behavior) (l : List SentRecord)
    (msg id : String) (now : Int) (h : b.webhookSet = false) :
    (sendSlackNotification b l msg id now).transportCalls = 0 ∧
    (sendSlackNotification b l msg id now).insertAttempts = 0 ∧
    (sendSlackNotification b l msg id now).ledger = l ∧
    (sendSlackNotification b l msg id now).sent = false := by
  simp [sendSlackNotification, h]

/-- Witness for C10 at a concrete input. -/
theorem missing_webhook_skips_silently_witness :
    (sendSlackNotification noWebhookBehavior [] "hello" "r1" 0).transportCalls = 0 ∧
    (sendSlackNotification noWebhookBehavior [] "hello" "r1" 0).insertAttempts = 0 ∧
    (sendSlackNotification noWebhookBehavior [] "hello" "r1" 0).ledger = [] ∧
    (sendSlackNotification noWebhookBehavior [] "hello" "r1" 0).sent = false :=
  missing_webhook_skips_silently noWebhookBehavior [] "hello" "r1" 0 rfl

end SwabWorker
